import Mathlib

/-!
Verification of the TaskFlow backend core against its specification.

The embedding models three parts of the source:

* `Database` — the MongoDB connection wrapper
  (src/taskflow-backend/build/config/database.js and its TypeScript
  original in src/unnamed/part_003): a class holding a `MongoClient`
  and a nullable `db` field, with `connect`, `getDb`, `disconnect`.
* `AuthService.verifyToken` — the bearer-token verification flow
  (src/taskflow-backend/src/modules/auth/services/AuthService.ts):
  forwards the token to the external identity provider
  (`auth.verifyIdToken`) and maps every rejection to `Error "Invalid token"`.
* the dependency registry used by `registerAuthModule`
  (src/taskflow-backend/build/modules/auth/controllers/AuthController.js):
  the registry implementation itself (the inversify `Container`) is not
  among the repository's files, so its `bind`/`resolve` are modelled from
  the specification's words.

External collaborators (the MongoDB driver, the identity provider) are
modelled at their interface boundary.  Reference identity of JavaScript
objects is modelled by allocation counters: each fresh object the driver
or a factory produces carries a sequence number, and two objects are the
same reference exactly when their numbers agree.
-/

namespace TaskFlow

/- ## Resource Lifecycle Manager (class Database in config/database.js) -/

/-- A `Db` object handed out by the MongoDB driver's `client.db(name)`.
The driver constructs a fresh wrapper object on every `client.db` call;
`id` is its allocation number, so two handles are the same JavaScript
reference exactly when their `id`s agree. -/
structure DbHandle where
  id : Nat
deriving DecidableEq, Repr

/-- The error thrown by `getDb` when `this.db` is null:
`Error "Database not initialized. Call connect() first."`. -/
inductive DbError where
  | notInitialized
deriving DecidableEq, Repr

/-- The message string carried by each `DbError` in the source. -/
def DbError.message : DbError → String
  | .notInitialized => "Database not initialized. Call connect() first."

/-- The observable state of the `Database` instance together with the
bookkeeping of its driver: `db` is the nullable `this.db` field,
`dbAllocs` counts the `client.db(name)` calls made so far (each allocates
a fresh `DbHandle`), `connectCalls` counts the `client.connect()`
handshake invocations, and `closed` records whether `client.close()`
has been called. -/
structure DatabaseState where
  db : Option DbHandle
  dbAllocs : Nat
  connectCalls : Nat
  closed : Bool
deriving DecidableEq, Repr

namespace Database

/-- The constructor: `this.db = null`, a fresh client, nothing invoked yet. -/
def init : DatabaseState :=
  { db := none, dbAllocs := 0, connectCalls := 0, closed := false }

/-- Result of `connect()`: either control returns with the updated state,
or the process terminates (`process.exit(1)` in the catch branch). -/
inductive ConnectResult where
  | ok (s : DatabaseState)
  | processExit (code : Nat)
deriving DecidableEq, Repr

/-- `connect()`: awaits `this.client.connect()` (the handshake, whose
success is the environment's choice, passed as `handshakeOk`), then
assigns `this.db = this.client.db("taskflow")` — a freshly allocated
handle.  On handshake failure the catch branch calls `process.exit(1)`,
so no state is ever returned to the caller.  The body runs
unconditionally: the source checks no prior state. -/
def connect (s : DatabaseState) (handshakeOk : Bool) : ConnectResult :=
  if handshakeOk then
    ConnectResult.ok
      { s with
        connectCalls := s.connectCalls + 1
        dbAllocs := s.dbAllocs + 1
        db := some ⟨s.dbAllocs⟩ }
  else
    ConnectResult.processExit 1

/-- `getDb()`: `if (!this.db) throw new Error(...); return this.db;`.
A pure read — it touches no field and performs no driver call. -/
def getDb (s : DatabaseState) : Except DbError DbHandle :=
  match s.db with
  | none => Except.error DbError.notInitialized
  | some h => Except.ok h

/-- `disconnect()`: `await this.client.close();` — and nothing else.
In particular the source does **not** assign `this.db = null`. -/
def disconnect (s : DatabaseState) : DatabaseState :=
  { s with closed := true }

/-- The state-changing operations a caller can perform on the singleton
`database` instance; `getDb` is a pure read and so not listed. -/
inductive Op where
  | connect (handshakeOk : Bool)
  | disconnect
deriving DecidableEq, Repr

/-- Run a sequence of operations from a state; `none` means the process
terminated inside a failed `connect`. -/
def runOps : DatabaseState → List Op → Option DatabaseState
  | s, [] => some s
  | s, Op.connect ok :: rest =>
    match connect s ok with
    | ConnectResult.ok s' => runOps s' rest
    | ConnectResult.processExit _ => none
  | s, Op.disconnect :: rest => runOps (disconnect s) rest

/-- Whether a list of operations contains a successful `connect`. -/
def hasSuccessfulConnect : List Op → Bool
  | [] => false
  | Op.connect true :: _ => true
  | _ :: rest => hasSuccessfulConnect rest

/-- The state reached from the constructor by one successful `connect`. -/
def afterFirstConnect : DatabaseState :=
  { db := some ⟨0⟩, dbAllocs := 1, connectCalls := 1, closed := false }

end Database

/- ## Identity Verifier (AuthService in modules/auth/services/AuthService.ts) -/

/-- The claims object resolved by the provider's `auth.verifyIdToken`:
a subject identifier `uid` and an `email` that may be absent. -/
structure DecodedToken where
  uid : String
  email : Option String
deriving DecidableEq, Repr

/-- One outcome of the awaited provider call `auth.verifyIdToken(token)`:
the promise resolves with claims, rejects because the credential is
malformed, expired or revoked, or rejects because the provider cannot
be reached (network failure or timeout).  All three are decided by the
external provider, so the model takes the provider as a function from
tokens to outcomes. -/
inductive ProviderOutcome where
  | accepted (claims : DecodedToken)
  | rejected
  | unavailable
deriving DecidableEq, Repr

/-- The one error `verifyToken` ever throws: `new Error "Invalid token"`
from the catch-all branch. -/
inductive AuthError where
  | invalidToken
deriving DecidableEq, Repr

/-- The message string of each `AuthError` in the source. -/
def AuthError.message : AuthError → String
  | .invalidToken => "Invalid token"

/-- The record `verifyToken` resolves with: `uid` and `email` are both
plain strings (the `email` field of the record literal is always built
from `decodedToken.email || ""`). -/
structure Principal where
  uid : String
  email : String
deriving DecidableEq, Repr

/-- JavaScript `decodedToken.email || ""`: the empty string when `email`
is absent, null or itself `""` (all falsy), otherwise `email`. -/
def emailOrEmpty : Option String → String
  | none => ""
  | some e => e

namespace AuthService

/-- `verifyToken(token)` from the source: the body unconditionally awaits
`auth.verifyIdToken(token)` — there is no emptiness or shape check before
the provider call — then either builds the result record from the decoded
claims, or, in the single catch-all branch, throws `Error "Invalid token"`
for **every** rejection, provider unavailability included.

The returned pair is (the call's result, the list of tokens sent to the
provider during the call, in order). -/
def verifyToken (provider : String → ProviderOutcome) (token : String) :
    Except AuthError Principal × List String :=
  (match provider token with
   | ProviderOutcome.accepted claims =>
     Except.ok { uid := claims.uid, email := emailOrEmpty claims.email }
   | ProviderOutcome.rejected => Except.error AuthError.invalidToken
   | ProviderOutcome.unavailable => Except.error AuthError.invalidToken,
   [token])

end AuthService

/- ## Dependency Registry -/

/-- Modelled from the spec: the Dependency Registry (the inversify
`Container` used by `registerAuthModule`) is not among the repository's
files — only its caller is — so `bind` and `resolve` below follow §4.1 of
the specification: `bind(token, factory, lifecycle)` registers or replaces
the binding for a token; `resolve(token)` fails with `UnboundCapability`
on an unbound token, invokes the factory and caches the result on the
first Singleton resolution, returns the cached instance without
re-invoking the factory thereafter, and invokes the factory fresh on
every Transient resolution.  Factory bodies are opaque: each invocation
produces a fresh instance, identified by an allocation number. -/
inductive Lifecycle where
  | singleton
  | transientMode
deriving DecidableEq, Repr

/-- A registry binding: which factory, and its lifecycle mode. -/
structure Binding where
  factoryId : Nat
  lifecycle : Lifecycle
deriving DecidableEq, Repr

/-- The resolution error for a token with no binding. -/
inductive RegistryError where
  | unboundCapability
deriving DecidableEq, Repr

/-- Registry state: the bindings, the Singleton cache (token to the
allocation number of the cached instance), the allocator for fresh
instances, and a count of factory invocations. -/
structure Registry where
  bindings : List (String × Binding)
  cache : List (String × Nat)
  nextInstance : Nat
  factoryCalls : Nat
deriving DecidableEq, Repr

namespace Registry

/-- The empty registry the Composition Root starts from. -/
def empty : Registry :=
  { bindings := [], cache := [], nextInstance := 0, factoryCalls := 0 }

/-- `bind(token, factory, lifecycle)`: registers or replaces the binding
for `token` (at most one active binding per token). -/
def bind (r : Registry) (token : String) (factoryId : Nat)
    (lc : Lifecycle) : Registry :=
  { r with
    bindings :=
      (token, { factoryId := factoryId, lifecycle := lc }) ::
        r.bindings.filter (fun p => p.1 ≠ token) }

/-- `resolve(token)`: `UnboundCapability` when no binding exists; for a
Singleton binding a cache hit returns the cached instance with no factory
invocation, a miss invokes the factory (one fresh instance) and caches
it; a Transient binding invokes the factory on every call. -/
def resolve (r : Registry) (token : String) :
    Except RegistryError (Nat × Registry) :=
  match r.bindings.find? (fun p => p.1 = token) with
  | none => Except.error RegistryError.unboundCapability
  | some (_, b) =>
    match b.lifecycle with
    | Lifecycle.singleton =>
      match r.cache.find? (fun p => p.1 = token) with
      | some (_, inst) => Except.ok (inst, r)
      | none =>
        Except.ok (r.nextInstance,
          { r with
            cache := (token, r.nextInstance) :: r.cache
            nextInstance := r.nextInstance + 1
            factoryCalls := r.factoryCalls + 1 })
    | Lifecycle.transientMode =>
      Except.ok (r.nextInstance,
        { r with
          nextInstance := r.nextInstance + 1
          factoryCalls := r.factoryCalls + 1 })

end Registry

/-- The two capability tokens of AUTH_TYPES (modules/auth/types.ts):
`Symbol.for` of each name, modelled by the name itself (two tokens built
from the same name are equal). -/
def AUTH_TYPES_AuthService : String := "AuthService"

/-- The `AuthController` token of AUTH_TYPES. -/
def AUTH_TYPES_AuthController : String := "AuthController"

/-- `registerAuthModule(container)` from the source: binds
`AUTH_TYPES.AuthService` to the `AuthService` class and
`AUTH_TYPES.AuthController` to the `AuthController` class, both
`inSingletonScope()`. -/
def registerAuthModule (r : Registry) : Registry :=
  (r.bind AUTH_TYPES_AuthService 0 Lifecycle.singleton).bind
    AUTH_TYPES_AuthController 1 Lifecycle.singleton

/- ## Concrete collaborators used to exercise the model -/

/-- A provider that rejects every credential (e.g., every credential it
is shown is malformed or expired). -/
def rejectingProvider : String → ProviderOutcome :=
  fun _ => ProviderOutcome.rejected

/-- A provider that is unreachable: every call fails with a network
error or timeout. -/
def unavailableProvider : String → ProviderOutcome :=
  fun _ => ProviderOutcome.unavailable

/-- A provider that accepts exactly the credential `valid-token`,
resolving it to a fixed subject, and rejects everything else
(e.g., the expired `expired-token`). -/
def sampleProvider : String → ProviderOutcome :=
  fun t =>
    if t = "valid-token" then
      ProviderOutcome.accepted { uid := "user-1", email := some "u1@example.com" }
    else
      ProviderOutcome.rejected

/-- A provider whose accepted claims carry no contact address. -/
def noEmailProvider : String → ProviderOutcome :=
  fun _ => ProviderOutcome.accepted { uid := "user-2", email := none }

/-- The registry as the Composition Root leaves it after
`registerAuthModule`. -/
def authRegistry : Registry := registerAuthModule Registry.empty

/-- The registry after the first resolution of the `AuthService` token:
the instance allocated by that first factory invocation is cached. -/
def authRegistryResolved : Registry :=
  { bindings := authRegistry.bindings
    cache := [(AUTH_TYPES_AuthService, 0)]
    nextInstance := 1
    factoryCalls := 1 }

/- ## Theorems -/

/-- Along any run that never performs a successful `connect`, the `db`
field keeps the constructor's value `null`. -/
theorem db_stays_none : ∀ (ops : List Database.Op) (s0 s : DatabaseState),
    s0.db = none → Database.hasSuccessfulConnect ops = false →
    Database.runOps s0 ops = some s → s.db = none := by
  intro ops
  induction ops with
  | nil =>
    intro s0 s h0 _ hrun
    simp only [Database.runOps, Option.some.injEq] at hrun
    exact hrun ▸ h0
  | cons op rest ih =>
    intro s0 s h0 hno hrun
    cases op with
    | connect ok =>
      cases ok with
      | true => simp [Database.hasSuccessfulConnect] at hno
      | false => simp [Database.runOps, Database.connect] at hrun
    | disconnect =>
      refine ih (Database.disconnect s0) s ?_ ?_ ?_
      · exact h0
      · simpa [Database.hasSuccessfulConnect] using hno
      · simpa [Database.runOps] using hrun

/-- **C1.** Every call to `Database.getDb` made before `connect()` has
completed successfully — that is, in any state the singleton reaches by a
run of operations containing no successful `connect` — throws the
`NotInitialized` error and returns no handle. -/
theorem getDb_before_successful_connect (ops : List Database.Op) (s : DatabaseState)
    (hno : Database.hasSuccessfulConnect ops = false)
    (hrun : Database.runOps Database.init ops = some s) :
    Database.getDb s = Except.error DbError.notInitialized := by
  have hdb : s.db = none := db_stays_none ops Database.init s rfl hno hrun
  simp [Database.getDb, hdb]

/-- Witness for C1: before any `connect` (here after just a stray
`disconnect`), `getDb` fails with `NotInitialized`. -/
theorem getDb_before_successful_connect_witness :
    Database.hasSuccessfulConnect [Database.Op.disconnect] = false ∧
    Database.runOps Database.init [Database.Op.disconnect] =
      some (Database.disconnect Database.init) ∧
    Database.getDb (Database.disconnect Database.init) =
      Except.error DbError.notInitialized :=
  ⟨rfl, rfl,
    getDb_before_successful_connect [Database.Op.disconnect]
      (Database.disconnect Database.init) rfl rfl⟩

/-- **C2, counterexample.** In the state reached by a successful
`connect()` followed by `disconnect()`, `getDb` does **not** fail with
`NotInitialized`: the source's `disconnect` only calls `client.close()`
and never clears `this.db`, so `getDb` still returns the stale handle. -/
theorem getDb_after_disconnect_not_error :
    Database.runOps Database.init [Database.Op.connect true, Database.Op.disconnect] =
      some (Database.disconnect Database.afterFirstConnect) ∧
    Database.getDb (Database.disconnect Database.afterFirstConnect) = Except.ok ⟨0⟩ ∧
    Database.getDb (Database.disconnect Database.afterFirstConnect) ≠
      Except.error DbError.notInitialized :=
  ⟨rfl, rfl, by
    intro hcon
    simp [Database.getDb, Database.disconnect, Database.afterFirstConnect] at hcon⟩

/-- **C2, amended.** `disconnect()` does not clear the stored handle:
from any state whose `db` field holds a handle, `getDb` after
`disconnect` still returns that same handle (the `NotInitialized` error
is observable only before the first successful `connect`). -/
theorem disconnect_keeps_handle (s : DatabaseState) (h : DbHandle)
    (hdb : s.db = some h) :
    Database.getDb (Database.disconnect s) = Except.ok h ∧
    (Database.disconnect s).db = s.db := by
  refine ⟨?_, rfl⟩
  simp [Database.getDb, Database.disconnect, hdb]

/-- Witness for the amended C2: after the first successful `connect`,
`disconnect` leaves `getDb` returning the stored handle. -/
theorem disconnect_keeps_handle_witness :
    Database.afterFirstConnect.db = some ⟨0⟩ ∧
    Database.getDb (Database.disconnect Database.afterFirstConnect) = Except.ok ⟨0⟩ :=
  ⟨rfl, (disconnect_keeps_handle Database.afterFirstConnect ⟨0⟩ rfl).1⟩

/-- **C6.** A successful `connect()` stores the freshly allocated handle
in `db`, and `getDb` then returns exactly that stored handle; `getDb` is
a pure read of the `db` field (its type `DatabaseState → Except DbError
DbHandle` returns no updated state), so every call between `connect` and
`disconnect` returns this same reference and re-invokes no handshake:
the handshake count is touched only by `connect` itself. -/
theorem getDb_returns_stored_handle (s s' : DatabaseState)
    (hc : Database.connect s true = Database.ConnectResult.ok s') :
    s'.db = some ⟨s.dbAllocs⟩ ∧
    Database.getDb s' = Except.ok ⟨s.dbAllocs⟩ ∧
    s'.connectCalls = s.connectCalls + 1 ∧
    s'.dbAllocs = s.dbAllocs + 1 := by
  have hs' : s' =
      { s with
        connectCalls := s.connectCalls + 1
        dbAllocs := s.dbAllocs + 1
        db := some ⟨s.dbAllocs⟩ } := by
    simpa [Database.connect] using hc.symm
  subst hs'
  exact ⟨rfl, rfl, rfl, rfl⟩

/-- Witness for C6: from the constructor state, `connect` stores handle
`0` and `getDb` returns it. -/
theorem getDb_returns_stored_handle_witness :
    Database.connect Database.init true =
      Database.ConnectResult.ok Database.afterFirstConnect ∧
    Database.getDb Database.afterFirstConnect = Except.ok ⟨0⟩ :=
  ⟨rfl, (getDb_returns_stored_handle Database.init Database.afterFirstConnect rfl).2.1⟩

/-- **C7.** A failing connection handshake makes `connect()` take the
catch branch, which calls `process.exit(1)`: the call terminates the
process and never returns a state, so no caller can observe any handle
after a failed `connect`. -/
theorem connect_failure_terminates (s : DatabaseState) :
    Database.connect s false = Database.ConnectResult.processExit 1 ∧
    ∀ s', Database.connect s false ≠ Database.ConnectResult.ok s' := by
  refine ⟨rfl, ?_⟩
  intro s' h
  simp [Database.connect] at h

/-- Witness for C7: from the constructor state, a failed handshake ends
the process with exit code 1. -/
theorem connect_failure_terminates_witness :
    Database.connect Database.init false = Database.ConnectResult.processExit 1 :=
  (connect_failure_terminates Database.init).1

/-- **C8, counterexample.** A second `connect()` after a successful first
one is neither rejected nor a no-op: the source's `connect` checks no
state, so it awaits `client.connect()` again (handshake count 2) and
reassigns `this.db` to the fresh wrapper returned by the driver's
`client.db("taskflow")`, replacing the stored handle `0` with the
different handle `1`. -/
theorem second_connect_replaces_handle :
    Database.runOps Database.init [Database.Op.connect true] =
      some Database.afterFirstConnect ∧
    Database.afterFirstConnect.db = some ⟨0⟩ ∧
    Database.runOps Database.init [Database.Op.connect true, Database.Op.connect true] =
      some { db := some ⟨1⟩, dbAllocs := 2, connectCalls := 2, closed := false } ∧
    some (DbHandle.mk 1) ≠ some (DbHandle.mk 0) :=
  ⟨rfl, rfl, rfl, by decide⟩

/-- **C8, amended.** From any state already holding a handle (every
stored handle has an allocation number below the current allocation
count), a second successful `connect()` re-invokes the driver handshake
and replaces the stored handle with a freshly allocated, different
one. -/
theorem second_connect_amended (s : DatabaseState) (h : DbHandle)
    (hdb : s.db = some h) (hfresh : h.id < s.dbAllocs) :
    ∃ s', Database.connect s true = Database.ConnectResult.ok s' ∧
      s'.connectCalls = s.connectCalls + 1 ∧
      s'.db = some ⟨s.dbAllocs⟩ ∧
      s'.db ≠ some h := by
  refine ⟨_, rfl, rfl, rfl, ?_⟩
  intro hc
  have hfid : s.dbAllocs = h.id := congrArg DbHandle.id (Option.some.inj hc)
  omega

/-- Witness for the amended C8: a second `connect` from the
post-first-connect state replaces handle `0` with handle `1`. -/
theorem second_connect_amended_witness :
    Database.afterFirstConnect.db = some ⟨0⟩ ∧
    (DbHandle.mk 0).id < Database.afterFirstConnect.dbAllocs ∧
    (∃ s', Database.connect Database.afterFirstConnect true =
        Database.ConnectResult.ok s' ∧
      s'.connectCalls = Database.afterFirstConnect.connectCalls + 1 ∧
      s'.db = some ⟨Database.afterFirstConnect.dbAllocs⟩ ∧
      s'.db ≠ some ⟨0⟩) :=
  ⟨rfl, by decide,
    second_connect_amended Database.afterFirstConnect ⟨0⟩ rfl (by decide)⟩

/-- **C3, counterexample.** `verifyToken("")` **does** contact the
provider: the body's first statement awaits `auth.verifyIdToken(token)`
with no emptiness guard, so the empty credential is forwarded (the
provider-call trace of the call is `[""]`, not `[]`); the call fails
with `Error "Invalid token"` only because the provider rejects the empty
credential. -/
theorem verifyToken_empty_contacts_provider :
    AuthService.verifyToken rejectingProvider "" =
      (Except.error AuthError.invalidToken, [""]) ∧
    ([""] : List String) ≠ ([] : List String) :=
  ⟨rfl, by simp⟩

/-- **C3, amended.** `verifyToken("")` forwards the empty credential to
the provider, and fails with the `Invalid token` error whenever the
provider rejects it — there is no local guard that would avoid the
provider round trip. -/
theorem verifyToken_empty_amended (provider : String → ProviderOutcome)
    (hrej : provider "" = ProviderOutcome.rejected) :
    AuthService.verifyToken provider "" =
      (Except.error AuthError.invalidToken, [""]) := by
  simp [AuthService.verifyToken, hrej]

/-- Witness for the amended C3, with a provider that rejects the empty
credential. -/
theorem verifyToken_empty_amended_witness :
    rejectingProvider "" = ProviderOutcome.rejected ∧
    AuthService.verifyToken rejectingProvider "" =
      (Except.error AuthError.invalidToken, [""]) :=
  ⟨rfl, verifyToken_empty_amended rejectingProvider rfl⟩

/-- **C4, counterexample.** Provider unavailability is **not** reported
distinctly: `verifyToken` has a single catch-all branch, so an
unreachable provider produces exactly the same `Error "Invalid token"`
value as a provider that rejects the credential (the service's error
type has no `IdentityProviderUnavailable` at all). -/
theorem unavailable_same_error_as_rejection :
    (AuthService.verifyToken unavailableProvider "token-1").1 =
      Except.error AuthError.invalidToken ∧
    (AuthService.verifyToken rejectingProvider "token-1").1 =
      Except.error AuthError.invalidToken ∧
    (AuthService.verifyToken unavailableProvider "token-1").1 =
      (AuthService.verifyToken rejectingProvider "token-1").1 :=
  ⟨rfl, rfl, rfl⟩

/-- **C4, amended.** On provider unavailability `verifyToken` fails with
the same `Invalid token` error it produces on provider rejection of a
malformed, expired or revoked credential: the two failure causes are not
distinguished by the code. -/
theorem verifyToken_unavailable_amended (provider : String → ProviderOutcome)
    (token : String) (hun : provider token = ProviderOutcome.unavailable) :
    (AuthService.verifyToken provider token).1 =
      Except.error AuthError.invalidToken ∧
    ∀ (provider2 : String → ProviderOutcome) (token2 : String),
      provider2 token2 = ProviderOutcome.rejected →
      (AuthService.verifyToken provider2 token2).1 =
        (AuthService.verifyToken provider token).1 := by
  constructor
  · simp [AuthService.verifyToken, hun]
  · intro provider2 token2 hrej
    simp [AuthService.verifyToken, hun, hrej]

/-- Witness for the amended C4: an unreachable provider yields the same
error value as a rejecting one. -/
theorem verifyToken_unavailable_amended_witness :
    unavailableProvider "token-2" = ProviderOutcome.unavailable ∧
    (AuthService.verifyToken unavailableProvider "token-2").1 =
      Except.error AuthError.invalidToken ∧
    (AuthService.verifyToken rejectingProvider "token-2").1 =
      (AuthService.verifyToken unavailableProvider "token-2").1 :=
  ⟨rfl, (verifyToken_unavailable_amended unavailableProvider "token-2" rfl).1,
    (verifyToken_unavailable_amended unavailableProvider "token-2" rfl).2
      rejectingProvider "token-2" rfl⟩

/-- **C9.** When the provider accepts a credential, `verifyToken`
returns the record whose `uid` is exactly the `uid` of the provider's
decoded claims (and whose `email` is the claims' address defaulted to
`""`); when the provider rejects it (e.g., expired), `verifyToken` fails
with the `Invalid token` error. -/
theorem verifyToken_subject_exact (provider : String → ProviderOutcome)
    (token : String) :
    (∀ claims, provider token = ProviderOutcome.accepted claims →
      (AuthService.verifyToken provider token).1 =
        Except.ok { uid := claims.uid, email := emailOrEmpty claims.email }) ∧
    (provider token = ProviderOutcome.rejected →
      (AuthService.verifyToken provider token).1 =
        Except.error AuthError.invalidToken) := by
  constructor
  · intro claims hacc
    simp [AuthService.verifyToken, hacc]
  · intro hrej
    simp [AuthService.verifyToken, hrej]

/-- Witness for C9: `sampleProvider` accepts `valid-token` as subject
`user-1` and rejects `expired-token`. -/
theorem verifyToken_subject_exact_witness :
    sampleProvider "valid-token" =
      ProviderOutcome.accepted { uid := "user-1", email := some "u1@example.com" } ∧
    (AuthService.verifyToken sampleProvider "valid-token").1 =
      Except.ok { uid := "user-1", email := "u1@example.com" } ∧
    sampleProvider "expired-token" = ProviderOutcome.rejected ∧
    (AuthService.verifyToken sampleProvider "expired-token").1 =
      Except.error AuthError.invalidToken :=
  ⟨rfl,
    (verifyToken_subject_exact sampleProvider "valid-token").1
      { uid := "user-1", email := some "u1@example.com" } rfl,
    rfl,
    (verifyToken_subject_exact sampleProvider "expired-token").2 rfl⟩

/-- **C10.** When the provider's accepted claims carry no contact
address (absent/null, modelled as `none`, or the empty string),
`verifyToken` returns a record whose `email` field is the string `""` —
`decodedToken.email || ""` in the source — and whose `uid` is the
claims' subject; the returned `Principal` record carries a `uid` and an
`email` that are both plain strings by construction. -/
theorem verifyToken_email_default (provider : String → ProviderOutcome)
    (token : String) (claims : DecodedToken)
    (hacc : provider token = ProviderOutcome.accepted claims)
    (hmail : claims.email = none ∨ claims.email = some "") :
    (AuthService.verifyToken provider token).1 =
      Except.ok { uid := claims.uid, email := "" } := by
  rcases hmail with hm | hm <;>
    simp [AuthService.verifyToken, hacc, emailOrEmpty, hm]

/-- Witness for C10: a provider resolving claims without an address
yields `email = ""`. -/
theorem verifyToken_email_default_witness :
    noEmailProvider "token-3" =
      ProviderOutcome.accepted { uid := "user-2", email := none } ∧
    ((DecodedToken.mk "user-2" none).email = none ∨
      (DecodedToken.mk "user-2" none).email = some "") ∧
    (AuthService.verifyToken noEmailProvider "token-3").1 =
      Except.ok { uid := "user-2", email := "" } :=
  ⟨rfl, Or.inl rfl,
    verifyToken_email_default noEmailProvider "token-3"
      { uid := "user-2", email := none } rfl (Or.inl rfl)⟩

/-- **C5.** (Registry modelled from the spec; `registerAuthModule` binds
the `AuthService` and `AuthController` tokens with Singleton lifecycle.)
For every token whose active binding has Singleton lifecycle, if a
`resolve` call returns instance `i` and registry state `r'`, the next
`resolve` of the same token returns the identical instance `i` and
leaves the registry unchanged — in particular the factory-invocation
count of the registry a second resolution returns equals that of `r'`:
the factory is not re-invoked. -/
theorem singleton_resolve_stable (r : Registry) (token : String)
    (hsing : (r.bindings.find? (fun p => p.1 = token)).map
        (fun p => p.2.lifecycle) = some Lifecycle.singleton)
    (i : Nat) (r' : Registry)
    (h1 : r.resolve token = Except.ok (i, r')) :
    r'.resolve token = Except.ok (i, r') ∧
    ∀ j r2, r'.resolve token = Except.ok (j, r2) →
      j = i ∧ r2.factoryCalls = r'.factoryCalls := by
  rcases hpb : r.bindings.find? (fun p => p.1 = token) with _ | ⟨t1, b⟩
  · rw [hpb] at hsing
    simp at hsing
  · obtain ⟨fid, lc⟩ := b
    rw [hpb] at hsing
    simp only [Option.map_some', Option.some.injEq] at hsing
    change lc = Lifecycle.singleton at hsing
    subst hsing
    have hmain : r'.resolve token = Except.ok (i, r') := by
      simp only [Registry.resolve, hpb] at h1
      rcases hc : r.cache.find? (fun p => p.1 = token) with _ | ⟨t2, j⟩
      · simp only [hc] at h1
        simp only [Except.ok.injEq, Prod.mk.injEq] at h1
        obtain ⟨hi, hr⟩ := h1
        subst hi
        subst hr
        simp [Registry.resolve, hpb, List.find?]
      · simp only [hc] at h1
        simp only [Except.ok.injEq, Prod.mk.injEq] at h1
        obtain ⟨hi, hr⟩ := h1
        subst hi
        subst hr
        simp [Registry.resolve, hpb, hc]
    refine ⟨hmain, ?_⟩
    intro j r2 h2
    rw [hmain] at h2
    simp only [Except.ok.injEq, Prod.mk.injEq] at h2
    exact ⟨h2.1.symm, by rw [h2.2]⟩

/-- Witness for C5: after `registerAuthModule`, resolving the
`AuthService` token twice yields the same instance `0`, with a single
factory invocation in total. -/
theorem singleton_resolve_stable_witness :
    (authRegistry.bindings.find? (fun p => p.1 = AUTH_TYPES_AuthService)).map
        (fun p => p.2.lifecycle) = some Lifecycle.singleton ∧
    authRegistry.resolve AUTH_TYPES_AuthService =
      Except.ok (0, authRegistryResolved) ∧
    authRegistryResolved.resolve AUTH_TYPES_AuthService =
      Except.ok (0, authRegistryResolved) ∧
    authRegistryResolved.factoryCalls = 1 :=
  ⟨rfl, rfl,
    (singleton_resolve_stable authRegistry AUTH_TYPES_AuthService rfl 0
      authRegistryResolved rfl).1,
    rfl⟩

end TaskFlow
